import Mathlib

/-!
Shallow embedding of the DBS total-error model app (`src/app.py`).

The app computes, for analytical performance parameters, a sampled curve of
minimum and maximum acceptable dried-blood-spot diameters versus the
analytical CV, a nearest-sample point estimate at the chosen CV, a display
policy for that point estimate, and a predicate gating the chart guide lines.

Numbers are modelled as rationals `ℚ` (idealising IEEE doubles); the one
place where floating-point special values matter — division by a zero
`factor` — is additionally modelled by `FVal`, rationals extended with
infinities and NaN, following IEEE semantics for the operations the code
performs.
-/

namespace DBS

/-- The scalar inputs of one evaluation, as read from the sidebar widgets. -/
structure Params where
  z : ℚ
  tea : ℚ
  bias : ℚ
  cv : ℚ
  factor : ℚ
  referenceSize : ℚ

/-- `np.linspace start stop num`: `num` evenly spaced samples from `start`
to `stop`, endpoints included. -/
def linspace (start stop : ℚ) (num : ℕ) : List ℚ :=
  (List.range num).map (fun i : ℕ => start + (stop - start) * (i : ℚ) / ((num : ℚ) - 1))

/-- `cv_values = np.linspace(0, 30, 200)` (line 46 of `src/app.py`). -/
def cv_values : List ℚ := linspace 0 30 200

/-- The x-coordinate of sample `i` of the sweep (0 outside the range). -/
def sampleX (i : ℕ) : ℚ := cv_values.getD i 0

/-- Column `z×CV (%)` of the dataframe, at sweep value `x`. -/
def zCV (p : Params) (x : ℚ) : ℚ := p.z * x

/-- Column `Max allowable bias (%)`, at sweep value `x`. -/
def maxAllowableBias (p : Params) (x : ℚ) : ℚ := p.tea - zCV p x

/-- Column `Max bias (DBS)`, at sweep value `x`. -/
def maxBiasDBS (p : Params) (x : ℚ) : ℚ := maxAllowableBias p x - p.bias

/-- Column `Max mm difference`, at sweep value `x` (rational idealisation;
see `maxMmDifferenceF` for the IEEE behaviour at `factor = 0`). -/
def maxMmDifference (p : Params) (x : ℚ) : ℚ := maxBiasDBS p x / p.factor

/-- Column `Min size`, at sweep value `x`. -/
def minSize (p : Params) (x : ℚ) : ℚ := p.referenceSize - maxMmDifference p x

/-- Column `Max size`, at sweep value `x`. -/
def maxSize (p : Params) (x : ℚ) : ℚ := p.referenceSize + maxMmDifference p x

/-- One row of the dataframe restricted to the three columns the claims
speak about. -/
structure CurvePoint where
  x : ℚ
  minSize : ℚ
  maxSize : ℚ
deriving DecidableEq, Repr

/-- The sampled curve: one `CurvePoint` per entry of `cv_values`
(lines 46-55 of `src/app.py`). -/
def computeCurve (p : Params) : List CurvePoint :=
  cv_values.map (fun x => ⟨x, minSize p x, maxSize p x⟩)

/-- Comparison of sample indices by absolute distance of their x-value to
the chosen CV — the sort key of `(df["Analytical CV (%)"] - cv_value).abs()`. -/
def distRel (p : Params) (i j : ℕ) : Prop :=
  |sampleX i - p.cv| ≤ |sampleX j - p.cv|

instance (p : Params) : DecidableRel (distRel p) :=
  fun i j => inferInstanceAs (Decidable (|sampleX i - p.cv| ≤ |sampleX j - p.cv|))

instance (p : Params) : IsTotal ℕ (distRel p) :=
  ⟨fun _ _ => le_total _ _⟩

instance (p : Params) : IsTrans ℕ (distRel p) :=
  ⟨fun _ _ _ h h' => le_trans h h'⟩

/-- The index of the row picked by
`df.iloc[(df["Analytical CV (%)"] - cv_value).abs().argsort()[:1]]`
(line 58): sort the sample indices by distance to the chosen CV with a
stable sort and take the first. -/
def chosenIndex (p : Params) : ℕ :=
  ((List.range 200).insertionSort (distRel p)).headD 0

/-- `min_dbs_size = chosen["Min size"]` (line 59). -/
def min_dbs_size (p : Params) : ℚ := minSize p (sampleX (chosenIndex p))

/-- `max_dbs_size = chosen["Max size"]` (line 60). -/
def max_dbs_size (p : Params) : ℚ := maxSize p (chosenIndex p |> sampleX)

/-- What a metric widget shows: the string "Not feasible", the clamped
string "0", or a numeric value (string formatting of the number is
presentation and is modelled by the number itself). -/
inductive Display where
  | notFeasible
  | clampedZero
  | value (v : ℚ)
deriving DecidableEq, Repr

/-- `min_display` (lines 66-71 of `src/app.py`). -/
def min_display (p : Params) : Display :=
  if min_dbs_size p > p.referenceSize then .notFeasible
  else if min_dbs_size p < 0 then .clampedZero
  else .value (min_dbs_size p)

/-- `max_display` (lines 73-76 of `src/app.py`). -/
def max_display (p : Params) : Display :=
  if max_dbs_size p < p.referenceSize then .notFeasible
  else .value (max_dbs_size p)

/-- The guard of the guide-lines block (line 102):
`0 <= min_dbs_size <= reference_size and max_dbs_size >= reference_size`. -/
def guideShown (p : Params) : Prop :=
  0 ≤ min_dbs_size p ∧ min_dbs_size p ≤ p.referenceSize ∧
    max_dbs_size p ≥ p.referenceSize

instance (p : Params) : Decidable (guideShown p) :=
  inferInstanceAs (Decidable (_ ∧ _ ∧ _))

/-- Neither metric shows the string "Not feasible": the conjunction of the
per-bound labeling conditions both passing. -/
def labelsFeasible (p : Params) : Prop :=
  min_display p ≠ .notFeasible ∧ max_display p ≠ .notFeasible

instance (p : Params) : Decidable (labelsFeasible p) :=
  inferInstanceAs (Decidable (_ ∧ _))

/-- An IEEE double restricted to the values the app can produce: a finite
value (idealised as a rational), the two infinities, or NaN. -/
inductive FVal where
  | finite (q : ℚ)
  | posInf
  | negInf
  | nan
deriving DecidableEq, Repr

/-- Division as numpy performs it: finite quotient for a nonzero
denominator; `±inf` (by the numerator's sign) or `nan` for a zero one. -/
def numpyDiv (a b : ℚ) : FVal :=
  if b = 0 then
    if 0 < a then .posInf else if a < 0 then .negInf else .nan
  else .finite (a / b)

/-- Whether the value is finite. -/
def FVal.isFinite : FVal → Bool
  | .finite _ => true
  | _ => false

/-- `c - v` for a constant `c` and an extended value `v` (IEEE rules). -/
def FVal.constSub (c : ℚ) : FVal → FVal
  | .finite q => .finite (c - q)
  | .posInf => .negInf
  | .negInf => .posInf
  | .nan => .nan

/-- `c + v` for a constant `c` and an extended value `v` (IEEE rules). -/
def FVal.constAdd (c : ℚ) : FVal → FVal
  | .finite q => .finite (c + q)
  | .posInf => .posInf
  | .negInf => .negInf
  | .nan => .nan

/-- IEEE `<` on extended values: any comparison with NaN is false. -/
def FVal.lt : FVal → FVal → Bool
  | .finite a, .finite b => decide (a < b)
  | .finite _, .posInf => true
  | .negInf, .finite _ => true
  | .negInf, .posInf => true
  | _, _ => false

/-- Column `Max mm difference` with the floating-point division semantics
(line 51 of `src/app.py`, when `factor` may be zero). -/
def maxMmDifferenceF (p : Params) (x : ℚ) : FVal :=
  numpyDiv (maxBiasDBS p x) p.factor

/-- Column `Min size` with floating-point semantics. -/
def minSizeF (p : Params) (x : ℚ) : FVal :=
  FVal.constSub p.referenceSize (maxMmDifferenceF p x)

/-- Column `Max size` with floating-point semantics. -/
def maxSizeF (p : Params) (x : ℚ) : FVal :=
  FVal.constAdd p.referenceSize (maxMmDifferenceF p x)

/-- The widget defaults of the app, which are also Scenario 1 of the spec:
`z = 1.65`, `tea = 25`, `bias = 5`, `cv = 8.7`, `factor = 2.74`,
`referenceSize = 10.7`. -/
def scenarioParams : Params :=
  { z := 1.65, tea := 25, bias := 5, cv := 8.7, factor := 2.74,
    referenceSize := 10.7 }

/-- A valid parameter setting with `cv = 0` and `factor = 1`, whose point
estimate has `minSize = -9.3 < 0` and `maxSize = 30.7`. -/
def zeroCvParams : Params :=
  { z := 1.65, tea := 25, bias := 5, cv := 0, factor := 1,
    referenceSize := 10.7 }

/-- Scenario 2 of the spec: the Scenario 1 parameters with `factor = 0`. -/
def zeroFactorParams : Params :=
  { z := 1.65, tea := 25, bias := 5, cv := 8.7, factor := 0,
    referenceSize := 10.7 }

/-- A valid parameter setting with `cv = 0` whose point estimate lies in
the feasible region: `minSize ≈ 3.4 ∈ [0, 10.7]` and `maxSize ≈ 18`. -/
def feasibleParams : Params :=
  { z := 1.65, tea := 25, bias := 5, cv := 0, factor := 2.74,
    referenceSize := 10.7 }

attribute [local semireducible] Rat.add Rat.mul Rat.sub Rat.inv Rat.ofScientific

set_option maxRecDepth 200000

lemma cv_values_length : cv_values.length = 200 := by
  unfold cv_values linspace
  rw [List.length_map, List.length_range]

lemma sampleX_eq {i : ℕ} (hi : i < 200) : sampleX i = 30 * i / 199 := by
  unfold sampleX cv_values linspace
  rw [List.getD_eq_getElem _ _ (by rw [List.length_map, List.length_range]; exact hi)]
  rw [List.getElem_map, List.getElem_range]
  norm_num

lemma computeCurve_getD (p : Params) {i : ℕ} (hi : i < 200) :
    (computeCurve p).getD i ⟨0, 0, 0⟩ =
      ⟨sampleX i, minSize p (sampleX i), maxSize p (sampleX i)⟩ := by
  have hlen : i < cv_values.length := by rw [cv_values_length]; exact hi
  unfold computeCurve
  rw [List.getD_eq_getElem _ _ (by rw [List.length_map]; exact hlen)]
  rw [List.getElem_map]
  have hx : cv_values[i] = sampleX i := by
    unfold sampleX
    rw [List.getD_eq_getElem _ _ hlen]
  rw [hx]

lemma pair_sublist_range {a b n : ℕ} (hab : a < b) (hbn : b < n) :
    [a, b].Sublist (List.range n) := by
  induction n with
  | zero => omega
  | succ n ih =>
    rcases Nat.lt_succ_iff_lt_or_eq.mp hbn with h | rfl
    · exact (ih h).trans (List.range_sublist.mpr (Nat.le_succ n))
    · rw [List.range_succ]
      exact List.Sublist.append
        (List.singleton_sublist.mpr (List.mem_range.mpr hab)) (List.Sublist.refl [b])

lemma chosenIndex_spec (p : Params) :
    chosenIndex p < 200 ∧
    (∀ i, i < 200 → |sampleX (chosenIndex p) - p.cv| ≤ |sampleX i - p.cv|) ∧
    (∀ i, i < 200 → |sampleX i - p.cv| = |sampleX (chosenIndex p) - p.cv| →
      chosenIndex p ≤ i) := by
  have hperm : ((List.range 200).insertionSort (distRel p)).Perm (List.range 200) :=
    List.perm_insertionSort _ _
  have hlen : ((List.range 200).insertionSort (distRel p)).length = 200 := by
    rw [hperm.length_eq, List.length_range]
  have hne : (List.range 200).insertionSort (distRel p) ≠ [] := by
    intro h
    rw [h] at hlen
    simp at hlen
  obtain ⟨h0, t, hcons⟩ := List.exists_cons_of_ne_nil hne
  have hhead : chosenIndex p = h0 := by
    unfold chosenIndex
    rw [hcons]
    rfl
  have hsorted : List.Sorted (distRel p) ((List.range 200).insertionSort (distRel p)) :=
    List.sorted_insertionSort _ _
  have hnodup : ((List.range 200).insertionSort (distRel p)).Nodup :=
    hperm.nodup_iff.mpr (List.nodup_range 200)
  have h0lt : h0 < 200 := by
    have hm : h0 ∈ (List.range 200).insertionSort (distRel p) := by
      rw [hcons]
      exact List.mem_cons_self _ _
    simpa using hperm.mem_iff.mp hm
  have hmin : ∀ i, i < 200 → distRel p h0 i := by
    intro i hi
    have hi' : i ∈ (List.range 200).insertionSort (distRel p) :=
      hperm.mem_iff.mpr (List.mem_range.mpr hi)
    rw [hcons] at hi'
    rcases List.mem_cons.mp hi' with rfl | hit
    · exact le_refl _
    · rw [hcons] at hsorted
      exact (List.sorted_cons.mp hsorted).1 i hit
  refine ⟨hhead ▸ h0lt, fun i hi => hhead ▸ hmin i hi, ?_⟩
  intro i hi heq
  rw [hhead]
  by_contra hcon
  have hlt : i < h0 := by omega
  have hpair : [i, h0].Sublist (List.range 200) := pair_sublist_range hlt h0lt
  have hrel : distRel p i h0 := by
    rw [hhead] at heq
    exact le_of_eq heq
  have hsub : [i, h0].Sublist ((List.range 200).insertionSort (distRel p)) :=
    List.pair_sublist_insertionSort hrel hpair
  rw [hcons] at hsub hnodup
  cases hsub with
  | cons a hs =>
    exact (List.nodup_cons.mp hnodup).1 (hs.subset (by simp))
  | cons₂ a hs =>
    omega

lemma min_display_notFeasible_iff (p : Params) :
    min_display p = .notFeasible ↔ p.referenceSize < min_dbs_size p := by
  unfold min_display
  split_ifs with h1 h2
  · exact iff_of_true rfl h1
  · constructor
    · intro h
      simp at h
    · intro h
      exact h1 h
  · constructor
    · intro h
      simp at h
    · intro h
      exact absurd h h1

lemma min_display_clampedZero_iff (p : Params) :
    min_display p = .clampedZero ↔
      min_dbs_size p ≤ p.referenceSize ∧ min_dbs_size p < 0 := by
  unfold min_display
  split_ifs with h1 h2
  · constructor
    · intro h
      simp at h
    · rintro ⟨hle, -⟩
      exact absurd h1 (not_lt.mpr hle)
  · exact iff_of_true rfl ⟨not_lt.mp h1, h2⟩
  · constructor
    · intro h
      simp at h
    · rintro ⟨-, hneg⟩
      exact absurd hneg h2

lemma min_display_value_eq (p : Params) (h1 : min_dbs_size p ≤ p.referenceSize)
    (h2 : 0 ≤ min_dbs_size p) : min_display p = .value (min_dbs_size p) := by
  unfold min_display
  rw [if_neg (not_lt.mpr h1), if_neg (not_lt.mpr h2)]

lemma max_display_notFeasible_iff (p : Params) :
    max_display p = .notFeasible ↔ max_dbs_size p < p.referenceSize := by
  unfold max_display
  split_ifs with h
  · simpa using h
  · constructor
    · intro hc
      simp at hc
    · intro hc
      exact absurd hc h

lemma max_display_value_eq (p : Params) (h : p.referenceSize ≤ max_dbs_size p) :
    max_display p = .value (max_dbs_size p) := by
  unfold max_display
  rw [if_neg (not_lt.mpr h)]

lemma min_gt_ref_iff (p : Params) :
    p.referenceSize < min_dbs_size p ↔
      maxMmDifference p (sampleX (chosenIndex p)) < 0 := by
  unfold min_dbs_size minSize
  constructor <;> intro h <;> linarith

lemma max_lt_ref_iff (p : Params) :
    max_dbs_size p < p.referenceSize ↔
      maxMmDifference p (sampleX (chosenIndex p)) < 0 := by
  unfold max_dbs_size maxSize
  constructor <;> intro h <;> linarith

/-- Claim C1: `computeCurve` produces exactly 200 evenly spaced samples of
the sweep variable over `[0, 30]` (sample `i` sits at `30*i/199`,
consecutive samples differ by `30/199`, the first is 0 and the last 30),
and at every sample the curve values are exactly
`minSize = referenceSize - (tea - z*x - bias)/factor` and
`maxSize = referenceSize + (tea - z*x - bias)/factor`, with no clamping
applied anywhere in the curve. -/
theorem curve_samples_exact (p : Params) :
    (computeCurve p).length = 200 ∧
    (∀ i, i < 200 → (computeCurve p).getD i ⟨0, 0, 0⟩ =
      ⟨30 * (i : ℚ) / 199,
       p.referenceSize - (p.tea - p.z * (30 * (i : ℚ) / 199) - p.bias) / p.factor,
       p.referenceSize + (p.tea - p.z * (30 * (i : ℚ) / 199) - p.bias) / p.factor⟩) ∧
    (∀ i, i + 1 < 200 →
      ((computeCurve p).getD (i + 1) ⟨0, 0, 0⟩).x -
        ((computeCurve p).getD i ⟨0, 0, 0⟩).x = 30 / 199) ∧
    ((computeCurve p).getD 0 ⟨0, 0, 0⟩).x = 0 ∧
    ((computeCurve p).getD 199 ⟨0, 0, 0⟩).x = 30 := by
  refine ⟨?_, ?_, ?_, ?_, ?_⟩
  · unfold computeCurve
    rw [List.length_map, cv_values_length]
  · intro i hi
    rw [computeCurve_getD p hi, sampleX_eq hi]
    rfl
  · intro i hi
    have hi' : i < 200 := by omega
    rw [computeCurve_getD p hi, computeCurve_getD p hi']
    show sampleX (i + 1) - sampleX i = 30 / 199
    rw [sampleX_eq hi, sampleX_eq hi']
    push_cast
    ring
  · rw [computeCurve_getD p (by norm_num)]
    show sampleX 0 = 0
    rw [sampleX_eq (by norm_num)]
    norm_num
  · rw [computeCurve_getD p (by norm_num)]
    show sampleX 199 = 30
    rw [sampleX_eq (by norm_num)]
    norm_num

/-- Witness for C1 at the default parameters and sample 1. -/
theorem curve_samples_exact_witness :
    (computeCurve scenarioParams).getD 1 ⟨0, 0, 0⟩ =
      ⟨30 * ((1 : ℕ) : ℚ) / 199,
       scenarioParams.referenceSize -
         (scenarioParams.tea - scenarioParams.z * (30 * ((1 : ℕ) : ℚ) / 199) -
           scenarioParams.bias) / scenarioParams.factor,
       scenarioParams.referenceSize +
         (scenarioParams.tea - scenarioParams.z * (30 * ((1 : ℕ) : ℚ) / 199) -
           scenarioParams.bias) / scenarioParams.factor⟩ :=
  (curve_samples_exact scenarioParams).2.1 1 (by norm_num)

/-- Claim C2: the point estimate used for the displayed metric is the curve
sample whose x-coordinate minimizes the absolute distance to the chosen
value, and among equally distant samples the lowest index wins. -/
theorem chosen_nearest (p : Params) :
    chosenIndex p < 200 ∧
    ∀ i, i < 200 →
      |sampleX (chosenIndex p) - p.cv| ≤ |sampleX i - p.cv| ∧
      (|sampleX i - p.cv| = |sampleX (chosenIndex p) - p.cv| →
        chosenIndex p ≤ i) := by
  obtain ⟨h1, h2, h3⟩ := chosenIndex_spec p
  exact ⟨h1, fun i hi => ⟨h2 i hi, h3 i hi⟩⟩

/-- Witness for C2 at the default parameters and sample 57. -/
theorem chosen_nearest_witness :
    |sampleX (chosenIndex scenarioParams) - scenarioParams.cv| ≤
      |sampleX 57 - scenarioParams.cv| :=
  ((chosen_nearest scenarioParams).2 57 (by norm_num)).1

/-- Claim C3: the displayed minimum is "Not feasible" iff the point
estimate has `minSize > referenceSize`, otherwise "0" iff `minSize < 0`,
otherwise the value itself; the displayed maximum is "Not feasible" iff
`maxSize < referenceSize` and otherwise the value itself. -/
theorem display_policy (p : Params) :
    (min_display p = .notFeasible ↔ p.referenceSize < min_dbs_size p) ∧
    (min_display p = .clampedZero ↔
      (min_dbs_size p ≤ p.referenceSize ∧ min_dbs_size p < 0)) ∧
    (min_dbs_size p ≤ p.referenceSize → 0 ≤ min_dbs_size p →
      min_display p = .value (min_dbs_size p)) ∧
    (max_display p = .notFeasible ↔ max_dbs_size p < p.referenceSize) ∧
    (p.referenceSize ≤ max_dbs_size p →
      max_display p = .value (max_dbs_size p)) :=
  ⟨min_display_notFeasible_iff p, min_display_clampedZero_iff p,
   fun h1 h2 => min_display_value_eq p h1 h2,
   max_display_notFeasible_iff p, fun h => max_display_value_eq p h⟩

/-- Witness for C3: at `feasibleParams` both metrics show the computed
values. -/
theorem display_policy_witness :
    min_display feasibleParams = .value (min_dbs_size feasibleParams) :=
  (display_policy feasibleParams).2.2.1 (by decide) (by decide)

/-- Claim C4: guide lines and markers are drawn iff
`0 ≤ minSize ≤ referenceSize` and `maxSize ≥ referenceSize` hold at the
point estimate, and this combined predicate is strictly stronger than the
per-bound display-labeling conditions: it implies that neither metric
shows "Not feasible", but not conversely. -/
theorem guide_policy :
    (∀ p : Params, guideShown p ↔
      (0 ≤ min_dbs_size p ∧ min_dbs_size p ≤ p.referenceSize ∧
        p.referenceSize ≤ max_dbs_size p)) ∧
    (∀ p : Params, guideShown p → labelsFeasible p) ∧
    (∃ p : Params, labelsFeasible p ∧ ¬ guideShown p) := by
  refine ⟨fun p => Iff.rfl, ?_, ?_⟩
  · intro p hg
    obtain ⟨h0, hle, hge⟩ := hg
    constructor
    · intro hc
      exact absurd ((min_display_notFeasible_iff p).mp hc) (not_lt.mpr hle)
    · intro hc
      exact absurd ((max_display_notFeasible_iff p).mp hc) (not_lt.mpr hge)
  · exact ⟨zeroCvParams, by decide⟩

/-- Witness for C4: at `feasibleParams` the guide-line predicate holds and
so both labels are feasible. -/
theorem guide_policy_witness : labelsFeasible feasibleParams :=
  guide_policy.2.1 feasibleParams (by decide)

/-- Claim C5: with `factor = 0` the division is unguarded and, under the
IEEE semantics of numpy division, every curve sample deterministically
gets non-finite (infinite or NaN) `minSize` and `maxSize` bounds; the
computation is total, no error is raised. -/
theorem factor_zero_nonfinite (p : Params) (hf : p.factor = 0) :
    ∀ i, i < 200 → (minSizeF p (sampleX i)).isFinite = false ∧
      (maxSizeF p (sampleX i)).isFinite = false := by
  intro i _
  unfold minSizeF maxSizeF maxMmDifferenceF numpyDiv
  rw [if_pos hf]
  split_ifs with h2 h3
  · exact ⟨rfl, rfl⟩
  · exact ⟨rfl, rfl⟩
  · exact ⟨rfl, rfl⟩

/-- Witness for C5 at Scenario 2 and sample 0. -/
theorem factor_zero_nonfinite_witness :
    (minSizeF zeroFactorParams (sampleX 0)).isFinite = false ∧
      (maxSizeF zeroFactorParams (sampleX 0)).isFinite = false :=
  factor_zero_nonfinite zeroFactorParams rfl 0 (by norm_num)

/-- Claim C6: at `z = 1.65`, `tea = 25`, `bias = 5`, `cv = 8.7`,
`factor = 2.74`, `referenceSize = 10.7` the formula chain gives
`zCV = 14.355`, `maxAllowableBias = 10.645`, `maxBiasDBS = 5.645`,
`maxMmDifference ≈ 2.0602`, `minSize ≈ 8.64` and `maxSize ≈ 12.76`. -/
theorem scenario1_values :
    zCV scenarioParams scenarioParams.cv = 14.355 ∧
    maxAllowableBias scenarioParams scenarioParams.cv = 10.645 ∧
    maxBiasDBS scenarioParams scenarioParams.cv = 5.645 ∧
    |maxMmDifference scenarioParams scenarioParams.cv - 2.0602| < 1 / 10000 ∧
    |minSize scenarioParams scenarioParams.cv - 8.64| < 1 / 200 ∧
    |maxSize scenarioParams scenarioParams.cv - 12.76| < 1 / 200 := by
  refine ⟨?_, ?_, ?_, ?_, ?_, ?_⟩ <;> decide

/-- Counterexample to C7 as stated: at the Scenario 2 parameters
(`factor = 0`, `z = 1.65 > 0`) increasing the CV from 1 to 2 does not
strictly decrease `maxMmDifference` (both are `+inf` in the IEEE model,
and IEEE `<` between them is false), and increasing `tea` from 25 to 26
does not strictly increase it either. -/
theorem mm_monotone_counterexample :
    0 < zeroFactorParams.z ∧ (1 : ℚ) < 2 ∧
    ¬ maxMmDifference zeroFactorParams 2 < maxMmDifference zeroFactorParams 1 ∧
    maxMmDifferenceF zeroFactorParams 1 = .posInf ∧
    maxMmDifferenceF zeroFactorParams 2 = .posInf ∧
    FVal.lt (maxMmDifferenceF zeroFactorParams 2)
      (maxMmDifferenceF zeroFactorParams 1) = false ∧
    ¬ maxMmDifference zeroFactorParams 1 <
        maxMmDifference { zeroFactorParams with tea := 26 } 1 ∧
    FVal.lt (maxMmDifferenceF zeroFactorParams 1)
      (maxMmDifferenceF { zeroFactorParams with tea := 26 } 1) = false := by
  refine ⟨?_, ?_, ?_, ?_, ?_, ?_, ?_, ?_⟩ <;> decide

/-- Claim C7 (amended with the positivity of `factor` that the
counterexample at `factor = 0` forces): holding the other parameters
fixed, when `z > 0` and `factor > 0` increasing the CV strictly decreases
`maxMmDifference`, and when `factor > 0` increasing `tea` strictly
increases it. -/
theorem mm_monotone (p : Params) (hf : 0 < p.factor) :
    (∀ x₁ x₂ : ℚ, 0 < p.z → x₁ < x₂ →
      maxMmDifference p x₂ < maxMmDifference p x₁) ∧
    (∀ t₁ t₂ x : ℚ, t₁ < t₂ →
      maxMmDifference { p with tea := t₁ } x <
        maxMmDifference { p with tea := t₂ } x) := by
  constructor
  · intro x₁ x₂ hz hx
    unfold maxMmDifference maxBiasDBS maxAllowableBias zCV
    rw [div_lt_div_iff₀ hf hf]
    have h1 : p.z * x₁ < p.z * x₂ := mul_lt_mul_of_pos_left hx hz
    exact mul_lt_mul_of_pos_right (by linarith) hf
  · intro t₁ t₂ x ht
    show (t₁ - p.z * x - p.bias) / p.factor <
      (t₂ - p.z * x - p.bias) / p.factor
    rw [div_lt_div_iff₀ hf hf]
    exact mul_lt_mul_of_pos_right (by linarith) hf

/-- Witness for the amended C7 at the default parameters. -/
theorem mm_monotone_witness :
    maxMmDifference scenarioParams 2 < maxMmDifference scenarioParams 1 :=
  (mm_monotone scenarioParams (by decide)).1 1 2 (by decide) (by decide)

/-- Claim C8: at every sample of the curve,
`maxSize - minSize = 2 * maxMmDifference` and the interval is symmetric
around `referenceSize`. -/
theorem curve_symmetric (p : Params) : ∀ i, i < 200 →
    ((computeCurve p).getD i ⟨0, 0, 0⟩).maxSize -
      ((computeCurve p).getD i ⟨0, 0, 0⟩).minSize
        = 2 * maxMmDifference p (sampleX i) ∧
    ((computeCurve p).getD i ⟨0, 0, 0⟩).maxSize +
      ((computeCurve p).getD i ⟨0, 0, 0⟩).minSize = 2 * p.referenceSize := by
  intro i hi
  rw [computeCurve_getD p hi]
  constructor
  · show maxSize p (sampleX i) - minSize p (sampleX i) = _
    unfold maxSize minSize
    ring
  · show maxSize p (sampleX i) + minSize p (sampleX i) = _
    unfold maxSize minSize
    ring

/-- Witness for C8 at the default parameters and sample 3. -/
theorem curve_symmetric_witness :
    ((computeCurve scenarioParams).getD 3 ⟨0, 0, 0⟩).maxSize -
      ((computeCurve scenarioParams).getD 3 ⟨0, 0, 0⟩).minSize
        = 2 * maxMmDifference scenarioParams (sampleX 3) :=
  (curve_symmetric scenarioParams 3 (by norm_num)).1

/-- Claim C9: whenever `factor ≠ 0` (so the point estimate is finite), the
two "Not feasible" labels appear together: each labeling condition is
equivalent to `maxMmDifference < 0` at the chosen sample. -/
theorem notFeasible_together (p : Params) (_hf : p.factor ≠ 0) :
    ((min_display p = .notFeasible) ↔ (max_display p = .notFeasible)) ∧
    ((min_display p = .notFeasible) ↔
      maxMmDifference p (sampleX (chosenIndex p)) < 0) ∧
    ((max_display p = .notFeasible) ↔
      maxMmDifference p (sampleX (chosenIndex p)) < 0) := by
  have hmin := (min_display_notFeasible_iff p).trans (min_gt_ref_iff p)
  have hmax := (max_display_notFeasible_iff p).trans (max_lt_ref_iff p)
  exact ⟨hmin.trans hmax.symm, hmin, hmax⟩

/-- Witness for C9 at `feasibleParams`. -/
theorem notFeasible_together_witness :
    (min_display feasibleParams = .notFeasible) ↔
      (max_display feasibleParams = .notFeasible) :=
  (notFeasible_together feasibleParams (by decide)).1

/-- Claim C10: whenever the clamped minimum display "0" is shown, the
combined guide-line predicate is false, so no guide lines or markers are
drawn. -/
theorem clamped_no_guide (p : Params) (h : min_display p = .clampedZero) :
    ¬ guideShown p := by
  obtain ⟨-, hneg⟩ := (min_display_clampedZero_iff p).mp h
  intro hg
  exact absurd hneg (not_lt.mpr hg.1)

/-- Witness for C10 at `zeroCvParams`, whose point estimate has
`minSize = -9.3`. -/
theorem clamped_no_guide_witness : ¬ guideShown zeroCvParams :=
  clamped_no_guide zeroCvParams (by decide)

end DBS
